import Mathlib

/-!
Formal model of the flappy-bird obstacle-avoidance engine found in
src/bob.py (core simulation: Bird, Balloon, BalloonSpawner, Game) and its
NEAT-training drivers src/bot.py and src/flappy/bot.py, together with
theorems settling the specification's claims.

Modelling conventions:
* pygame rects are integer-valued; `right`, `centerx`, `centery` are derived
  exactly as pygame derives them (integer division of non-negative sizes).
* Python floats are modelled as exact rationals; storing a float into an
  integer rect field truncates toward zero, modelled by `truncQ`.
* Values read from the environment — `pygame.time.get_ticks()` (milliseconds
  of wall clock), `random.randint` draws, sprite image sizes loaded from
  asset files, and NEAT network decisions — are explicit parameters.
-/

/-- Constant SCREEN_WIDTH = 600 from src/bob.py. -/
def SCREEN_WIDTH : ℤ := 600

/-- Constant SCREEN_HEIGHT = 700 from src/bob.py. -/
def SCREEN_HEIGHT : ℤ := 700

/-- Constant GROUND_HEIGHT = 25 from src/bob.py. -/
def GROUND_HEIGHT : ℤ := 25

/-- Constant CEILING_HEIGHT = 25 from src/bob.py. -/
def CEILING_HEIGHT : ℤ := 25

/-- Constant BALLOON_WIDTH = 100 from src/bob.py. -/
def BALLOON_WIDTH : ℤ := 100

/-- Constant BIRD_JUMP = 11 (the jump impulse) from src/bob.py. -/
def BIRD_JUMP : ℤ := 11

/-- Constant GRAVITY = 0.85 from src/bob.py, as an exact rational. -/
def GRAVITY : ℚ := 0.85

/-- Constant BALLOON_SPEED = 4 from src/bob.py. -/
def BALLOON_SPEED : ℤ := 4

/-- Constant BALLOON_SPAWN_RATE = 20 from src/bob.py.  In the code it is
compared against `pygame.time.get_ticks() % BALLOON_SPAWN_RATE`, hence a
natural number here. -/
def BALLOON_SPAWN_RATE : ℕ := 20

/-- Truncation toward zero, the conversion pygame applies when a Python
float is stored into an integer rect field. -/
def truncQ (q : ℚ) : ℤ := if q < 0 then ⌈q⌉ else ⌊q⌋

/-- State of a `Bird` sprite (src/bob.py, class Bird): rect topleft `(x, y)`,
vertical `velocity`, `score` and `score_change` (`scoreChange`).  The extra
field `lastJumpY` is the `last_jump_y` attribute of the Bird class of the
flappy package (that module is not among the sources; its reader
src/flappy/bot.py line 95 shows the attribute exists). -/
structure Bird where
  x : ℤ
  y : ℤ
  velocity : ℚ
  score : ℤ
  scoreChange : ℤ
  lastJumpY : ℤ
  deriving DecidableEq

/-- The physics part of `Bird.update` (src/bob.py lines 59-60):
`velocity += GRAVITY` followed by `rect.y += velocity`.  The remaining lines
of `Bird.update` pick the sprite image (pure rendering) and accrue the score
returned by `Game.bird_fly_balloons_count_diff`, modelled separately. -/
def Bird.physicsStep (b : Bird) : Bird :=
  let v := b.velocity + GRAVITY
  { b with velocity := v, y := truncQ ((b.y : ℚ) + v) }

/-- Modelled from the spec: `Bird.jump` of the flappy package's Bird class
(the module is absent from the sources; only src/bob.py's snapshot —
`self.velocity = -BIRD_JUMP`, lines 73-74 — and the caller reading
`bird.last_jump_y` in src/flappy/bot.py line 95 are present).  Per the spec,
jump overwrites velocity with the negated impulse and records the
last-jump position as the current y. -/
def Bird.jump (b : Bird) : Bird :=
  { b with velocity := -(BIRD_JUMP : ℚ), lastJumpY := b.y }

/-- State of a `Balloon` sprite (src/bob.py, class Balloon): rect topleft
`(x, y)` and size `(w, h)` after the 0.9 collision-box shrink, the per-life
drift `jitter` (drawn once from `random.randint(1, 2)`), and the one-shot
`passed` flag. -/
structure Balloon where
  x : ℤ
  y : ℤ
  w : ℤ
  h : ℤ
  jitter : ℤ
  passed : Bool
  deriving DecidableEq

/-- pygame `rect.right`. -/
def Balloon.right (b : Balloon) : ℤ := b.x + b.w

/-- pygame `rect.centerx`. -/
def Balloon.centerx (b : Balloon) : ℤ := b.x + b.w / 2

/-- pygame `rect.centery`. -/
def Balloon.centery (b : Balloon) : ℤ := b.y + b.h / 2

/-- `Balloon.__init__` (src/bob.py lines 84-94) at `position = (px, py)`:
the rect is anchored by `midtop=position` on the image of size
`imgW x imgH` (so `x = px - imgW / 2`, `y = py`), then width and height are
scaled by 0.9 with pygame's truncating store (`9 * _ / 10` exactly, since
the float product 0.9 * n never crosses an integer for rect-sized n), and
the `passed` flag starts unset.  The jitter is the `random.randint(1, 2)`
draw, passed in explicitly; the image sizes come from asset files. -/
def Balloon.init (pos : ℤ × ℤ) (jitter imgW imgH : ℤ) : Balloon :=
  { x := pos.1 - imgW / 2
    y := pos.2
    w := 9 * imgW / 10
    h := 9 * imgH / 10
    jitter := jitter
    passed := false }

/-- The movement part of `Balloon.update` (src/bob.py line 97):
`rect.x -= BALLOON_SPEED + jitter`. -/
def Balloon.moveStep (b : Balloon) : Balloon :=
  { b with x := b.x - (BALLOON_SPEED + b.jitter) }

/-- `Balloon.check_passed` (src/bob.py lines 102-106): returns True and sets
the flag iff the balloon's right edge is strictly left of the bird's left
edge and the flag is still unset; otherwise returns False and leaves the
balloon unchanged. -/
def Balloon.checkPassed (b : Balloon) (bird : Bird) : Bool × Balloon :=
  if b.right < bird.x ∧ b.passed = false then (true, { b with passed := true })
  else (false, b)

/-- One event in a balloon's lifetime: either one movement step of
`Balloon.update`, or one `check_passed` query by some flyer. -/
inductive BalloonEvent where
  | move : BalloonEvent
  | check : Bird → BalloonEvent
  deriving DecidableEq

/-- Runs a balloon through a lifetime of events and records, for every
`check` event, the pair (geometric condition `right < bird.left` at call
time, value returned by `check_passed`). -/
def runChecks (b : Balloon) : List BalloonEvent → List (Bool × Bool)
  | [] => []
  | BalloonEvent.move :: es => runChecks b.moveStep es
  | BalloonEvent.check bird :: es =>
      (decide (b.right < bird.x), (b.checkPassed bird).1) :: runChecks (b.checkPassed bird).2 es

/-- State of a `BalloonSpawner` (src/bob.py lines 157-164): the live balloon
group (in insertion order) and `max_balloons_in_screen`. -/
structure BalloonSpawner where
  balloons : List Balloon
  maxBalloons : ℕ
  deriving DecidableEq

/-- `self.balloon_radius = BALLOON_WIDTH // 2` (src/bob.py line 161). -/
def balloonRadius : ℤ := BALLOON_WIDTH / 2

/-- `self.balloon_spawn_right = SCREEN_WIDTH + self.balloon_radius`. -/
def balloonSpawnRight : ℤ := SCREEN_WIDTH + balloonRadius

/-- `self.balloon_spawn_top = CEILING_HEIGHT + self.balloon_radius`. -/
def balloonSpawnTop : ℤ := CEILING_HEIGHT + balloonRadius

/-- `self.balloon_spawn_bottom = SCREEN_HEIGHT - GROUND_HEIGHT - self.balloon_radius`. -/
def balloonSpawnBottom : ℤ := SCREEN_HEIGHT - GROUND_HEIGHT - balloonRadius

/-- `min_distance = self.balloon_radius * 3` (src/bob.py line 184). -/
def minDistance : ℤ := balloonRadius * 3

/-- `BalloonSpawner._is_balloon_radius_free` (src/bob.py lines 197-203):
False iff some live balloon's center is closer than `freeRadius` to the
candidate point on both axes at once — horizontally via the signed
difference `new_x - balloon.centerx`, vertically via the absolute
difference. -/
def isBalloonRadiusFree (balloons : List Balloon) (pos : ℤ × ℤ) (freeRadius : ℤ) : Bool :=
  balloons.all fun b =>
    !(decide (pos.1 - b.centerx < freeRadius) && decide (|pos.2 - b.centery| < freeRadius))

/-- The rejection-sampling loop of `BalloonSpawner.spawn_balloon`
(src/bob.py lines 186-194): starting at draw index `i` with `tries`
remaining, take the next `random.randint` draw from `draws`, accept it if
`_is_balloon_radius_free` holds at `(balloon_spawn_right, y)`, else retry;
`none` when the tries are exhausted. -/
def spawnSearch (balloons : List Balloon) (draws : ℕ → ℤ) : ℕ → ℕ → Option ℤ
  | _, 0 => none
  | i, tries + 1 =>
      let y := draws i
      if isBalloonRadiusFree balloons (balloonSpawnRight, y) minDistance then some y
      else spawnSearch balloons draws (i + 1) tries

/-- `BalloonSpawner.spawn_balloon` (src/bob.py lines 183-195): run the
bounded search with 10 tries; on success add a Balloon constructed at
`(balloon_spawn_right, y)` (the while-else returns silently on
exhaustion). -/
def spawnBalloon (sp : BalloonSpawner) (draws : ℕ → ℤ) (jitter imgW imgH : ℤ) : BalloonSpawner :=
  match spawnSearch sp.balloons draws 0 10 with
  | none => sp
  | some y =>
      { sp with balloons := sp.balloons ++ [Balloon.init (balloonSpawnRight, y) jitter imgW imgH] }

/-- The effect of `self.balloons.update(game)` inside
`BalloonSpawner.update`: every balloon moves left by `BALLOON_SPEED +
jitter` and is killed when its right edge goes below 0 (src/bob.py
lines 96-99). -/
def advanceBalloons (bs : List Balloon) : List Balloon :=
  (bs.map Balloon.moveStep).filter fun b => !decide (b.right < 0)

/-- `BalloonSpawner.update` (src/bob.py lines 177-181): advance/retire the
balloons, then attempt a spawn iff `pygame.time.get_ticks()` — the
wall-clock millisecond counter `nowMs` — is divisible by
BALLOON_SPAWN_RATE and the live count is below the maximum. -/
def BalloonSpawner.update (sp : BalloonSpawner) (nowMs : ℕ) (draws : ℕ → ℤ)
    (jitter imgW imgH : ℤ) : BalloonSpawner :=
  let sp1 : BalloonSpawner := { sp with balloons := advanceBalloons sp.balloons }
  if nowMs % BALLOON_SPAWN_RATE = 0 ∧ sp1.balloons.length < sp.maxBalloons then
    spawnBalloon sp1 draws jitter imgW imgH
  else sp1

/-- A sequence of `BalloonSpawner.update` calls, one per `Game.tick`, where
`frames` lists the `pygame.time.get_ticks()` values observed at the
successive calls. -/
def runSpawnerFrames (sp : BalloonSpawner) (frames : List ℕ) (draws : ℕ → ℤ)
    (jitter imgW imgH : ℤ) : BalloonSpawner :=
  frames.foldl (fun s t => s.update t draws jitter imgW imgH) sp

/-- One entry of the NEAT perception vector.  `Feature.val q` is the exact
rational value `q`; `Feature.dist dy dx` stands for the floating-point
Euclidean distance `math.sqrt(dy ** 2 + dx ** 2)` computed by the source,
kept symbolic because the source computes it with floating-point `sqrt`. -/
inductive Feature where
  | val : ℚ → Feature
  | dist : ℚ → ℚ → Feature
  deriving DecidableEq

/-- The perception vector built by `Net._is_bird_need_jump`
(src/flappy/bot.py lines 139-181, the active code): normalized bird y,
velocity, score, then for each `(x, y)` coordinate pair the entries
`x`, `y`, and the distance `sqrt((bird_y_normal - y)^2 + (bird_x_normal -
x)^2)`. -/
def birdInputParams (gw gh : ℤ) (bird : Bird) (coords : List (ℚ × ℚ)) : List Feature :=
  let birdXNormal : ℚ := (bird.x : ℚ) / (gw : ℚ)
  let birdYNormal : ℚ := (bird.y : ℚ) / (gh : ℚ)
  let withDistance : List Feature := coords.flatMap fun c =>
    [Feature.val c.1, Feature.val c.2,
     Feature.dist (birdYNormal - c.2) (birdXNormal - c.1)]
  Feature.val birdYNormal :: Feature.val bird.velocity :: Feature.val (bird.score : ℚ)
    :: withDistance

/-- Modelled from the spec: `BalloonSpawner.get_balloon_coordinates` lives
in the flappy package module absent from the sources (src/flappy/bot.py and
src/bot.py only call it).  Per the spec (section 4.7) it yields one slot per
obstacle up to the field's maximum concurrency: the live balloons'
normalized coordinates in spawn order, with slots beyond the live count
filled with the sentinel -1. -/
def getBalloonCoordinates (gw gh : ℤ) (sp : BalloonSpawner) : List (ℚ × ℚ) :=
  (sp.balloons.map fun b => ((b.centerx : ℚ) / (gw : ℚ), (b.centery : ℚ) / (gh : ℚ)))
    ++ List.replicate (sp.maxBalloons - sp.balloons.length) (-1, -1)

/-- The perception vector exactly as the spec's words describe it (section
4.7 / claim C9), for comparison with the code's `birdInputParams`:
normalized vertical position from bottom, normalized vertical position from
top, velocity, score, then one slot per obstacle up to the maximum
concurrency holding normalized x, normalized y and the Euclidean distance,
with slots beyond the live count filled with the sentinel -1. -/
def specPerceptionVector (gw gh : ℤ) (bird : Bird) (sp : BalloonSpawner) : List Feature :=
  let bx : ℚ := (bird.x : ℚ) / (gw : ℚ)
  let bY : ℚ := (bird.y : ℚ) / (gh : ℚ)
  let liveSlots : List Feature := sp.balloons.flatMap fun b =>
    [Feature.val ((b.centerx : ℚ) / (gw : ℚ)), Feature.val ((b.centery : ℚ) / (gh : ℚ)),
     Feature.dist (bY - (b.centery : ℚ) / (gh : ℚ)) (bx - (b.centerx : ℚ) / (gw : ℚ))]
  let sentinelSlots : List Feature :=
    (List.replicate (sp.maxBalloons - sp.balloons.length)
      [Feature.val (-1), Feature.val (-1), Feature.val (-1)]).flatten
  Feature.val (1 - bY) :: Feature.val bY :: Feature.val bird.velocity
    :: Feature.val (bird.score : ℚ) :: (liveSlots ++ sentinelSlots)

/-- State of one generation of the evaluation loop in
`Net._q_learning_game` (src/flappy/bot.py lines 71-105): the active
`birds_mapping` as an association list in iteration order, and the fitness
of every genome by id (genomes persist outside the mapping, so fitness is
total over ids). -/
structure GenState where
  active : List (ℕ × Bird)
  fitness : ℕ → ℚ

/-- The per-agent fitness accrual and jump step of `on_game_tick`
(src/flappy/bot.py lines 88-97), up to but not including the collision
check: `fitness += 0.01`; `+= 10` if the bird's score changed; if the net
requests a jump, `-= 2` when the last jump left y unchanged, then
`bird.jump()`. Returns the accrued fitness and the (possibly jumped)
bird. -/
def agentTick (f : ℚ) (b : Bird) (needJump : Bool) : ℚ × Bird :=
  let f1 := f + 0.01
  let f2 := if b.scoreChange ≠ 0 then f1 + 10 else f1
  if needJump then
    (if b.lastJumpY = b.y then f2 - 2 else f2, b.jump)
  else (f2, b)

/-- The loop body of `on_game_tick` (src/flappy/bot.py lines 85-103) over
the remaining mapping entries: each agent accrues fitness via `agentTick`;
if `game.bird_collide_with_any(bird)` then holds (`collides`, an oracle for
the game-wide AABB test), the fitness takes the -5 collision penalty and
the entry is deleted, else the entry is kept. -/
def onGameTickGo (needJump : ℕ → Bird → Bool) (collides : Bird → Bool) :
    List (ℕ × Bird) → (ℕ → ℚ) → List (ℕ × Bird) × (ℕ → ℚ)
  | [], fit => ([], fit)
  | (k, b) :: rest, fit =>
      let fb := agentTick (fit k) b (needJump k b)
      if collides fb.2 then
        onGameTickGo needJump collides rest fun k' => if k' = k then fb.1 - 5 else fit k'
      else
        let r := onGameTickGo needJump collides rest fun k' => if k' = k then fb.1 else fit k'
        ((k, fb.2) :: r.1, r.2)

/-- One `on_game_tick` pass of `Net._q_learning_game`
(src/flappy/bot.py lines 85-103). -/
def onGameTick (st : GenState) (needJump : ℕ → Bird → Bool) (collides : Bird → Bool) :
    GenState :=
  let r := onGameTickGo needJump collides st.active st.fitness
  { active := r.1, fitness := r.2 }

/-- A reference held in `Game.updated_by_game` (src/bob.py line 219): the
grounds group (Boundary), or the i-th spawner / bird / score attached via
`attach_to_game`. -/
inductive EntityRef where
  | grounds : EntityRef
  | spawnerRef : ℕ → EntityRef
  | birdRef : ℕ → EntityRef
  | scoreRef : ℕ → EntityRef
  deriving DecidableEq

/-- The Boundary pair (Ground and Ceiling sprites, src/bob.py lines
109-138): their scrolling x offsets (their collision band is fixed). -/
structure Grounds where
  groundX : ℤ
  ceilingX : ℤ
  deriving DecidableEq

/-- State of `Game` (src/bob.py lines 206-220): screen size, the quit flag
`exit`, the grounds group created in `__init__`, the `updated_by_game`
registry (as references) and the `spawners` list.  The screen surface,
clock and framerate are rendering / real-time I/O and carry no simulation
state beyond the sizes kept here. -/
structure Game where
  width : ℤ
  height : ℤ
  exit : Bool
  grounds : Grounds
  updatedByGame : List EntityRef
  spawners : List BalloonSpawner
  deriving DecidableEq

/-- `Game.__init__` (src/bob.py lines 206-220): exit unset, grounds fresh,
`updated_by_game = [self.grounds]`, no spawners. -/
def Game.init (w h : ℤ) : Game :=
  { width := w, height := h, exit := false, grounds := ⟨0, 0⟩
    updatedByGame := [EntityRef.grounds], spawners := [] }

/-- `Game.attach_to_game` (src/bob.py lines 231-232). -/
def Game.attachToGame (g : Game) (r : EntityRef) : Game :=
  { g with updatedByGame := g.updatedByGame ++ [r] }

/-- `Game.add_spawner` (src/bob.py lines 234-236). -/
def Game.addSpawner (g : Game) (sp : BalloonSpawner) : Game :=
  { g with spawners := g.spawners ++ [sp],
           updatedByGame := g.updatedByGame ++ [EntityRef.spawnerRef g.spawners.length] }

/-- `Game.reset` (src/bob.py lines 254-259): raise SystemExit (modelled as
`Except.error ()`) when the exit flag is set; otherwise clear the flag,
reset `updated_by_game` to just the grounds group, and empty the spawner
list. -/
def Game.reset (g : Game) : Except Unit Game :=
  if g.exit then Except.error ()
  else Except.ok { g with exit := false, updatedByGame := [EntityRef.grounds], spawners := [] }

/-- Balloon of the C4 counterexample: spawned at candidate position
`(650, 300)` with jitter 1 on a 100 x 124 image, then drifted left for five
frames — a state reachable in an ordinary session. -/
def cexBalloon : Balloon := Balloon.moveStep^[5] (Balloon.init (650, 300) 1 100 124)

/-- The balloon the C4 counterexample spawner places next to `cexBalloon`. -/
def cexNewBalloon : Balloon := Balloon.init (650, 205) 1 100 124

/-- Draw stream that always returns 205. -/
def cexDraws205 : ℕ → ℤ := fun _ => 205

/-- Draw stream that always returns 350. -/
def cexDraws350 : ℕ → ℤ := fun _ => 350

/-- Draw stream that always returns 405. -/
def cexDraws405 : ℕ → ℤ := fun _ => 405

/-- Wall-clock readings of five successive `Game.tick` calls of a 60 fps
session (pygame.time.get_ticks advances by about 16 ms per frame). -/
def cexFrames : List ℕ := [16, 32, 48, 64, 80]

/-- A freshly spawned balloon used by several witnesses. -/
def witBalloon : Balloon := Balloon.init (650, 350) 1 100 124

/-- A concrete bird used by the C9 counterexample and witnesses. -/
def cexBird : Bird :=
  { x := 120, y := 100, velocity := 2, score := 3, scoreChange := 0, lastJumpY := 0 }

/-- A bird at rest, used by witnesses. -/
def witBird : Bird :=
  { x := 120, y := 233, velocity := 0, score := 0, scoreChange := 0, lastJumpY := 0 }

/-- Five live balloons, vertically spread, none close to retirement; used by
the C7 witness. -/
def witFiveBalloons : List Balloon :=
  [Balloon.init (650, 75) 1 100 124, Balloon.init (650, 185) 1 100 124,
   Balloon.init (650, 295) 1 100 124, Balloon.init (650, 405) 1 100 124,
   Balloon.init (650, 515) 1 100 124]

/-- A generation state with a single agent, id 1, zero fitness. -/
def witGenState : GenState := { active := [(1, witBird)], fitness := fun _ => 0 }

/-- A game that attached two entities and a spawner; exit flag unset. -/
def witGame : Game :=
  ((Game.init 600 700).attachToGame (EntityRef.birdRef 0)).addSpawner ⟨[], 5⟩

/-- The same game with the exit flag set by a QUIT event. -/
def witGameExit : Game := { witGame with exit := true }

/-- The expected result of resetting `witGame`. -/
def witGameReset : Game :=
  { witGame with exit := false, updatedByGame := [EntityRef.grounds], spawners := [] }

/-- The geometric pass conditions a balloon would see along a lifetime of
events, independent of the `passed` flag: for every `check` event, whether
`right < bird.left` held at call time.  The flag never influences movement,
so this is the condition stream of `runChecks`. -/
def runConds (b : Balloon) : List BalloonEvent → List Bool
  | [] => []
  | BalloonEvent.move :: es => runConds b.moveStep es
  | BalloonEvent.check bird :: es => decide (b.right < bird.x) :: runConds b es

/-- The claimed result stream of `check_passed` over a condition stream:
true exactly at the first position whose condition is true, false at every
earlier position (condition false there) and at every later position
regardless of its condition. -/
def markFirstTrue : List Bool → List Bool
  | [] => []
  | c :: cs => if c then true :: cs.map (fun _ => false) else false :: markFirstTrue cs

/-- Events for the C1 witness: two consecutive checks by a flyer standing
right of the balloon. -/
def witEvents : List BalloonEvent :=
  [BalloonEvent.check { cexBird with x := 700 }, BalloonEvent.check { cexBird with x := 700 }]

/-- A network decision oracle that never requests a jump. -/
def witNeedJump : ℕ → Bird → Bool := fun _ _ => false

/-- A collision oracle that always reports a collision. -/
def witCollides : Bird → Bool := fun _ => true

/-- C2: for every Flyer and every prior velocity, `jump()` overwrites the
velocity with exactly the negated jump impulse (it does not add), records
the last-jump position as the current y, and leaves position and score
untouched; in particular a bird at velocity 3 ends at exactly -11. -/
theorem bird_jump_overwrites : ∀ b : Bird,
    b.jump.velocity = -(BIRD_JUMP : ℚ)
    ∧ b.jump.lastJumpY = b.y
    ∧ b.jump.x = b.x ∧ b.jump.y = b.y ∧ b.jump.score = b.score
    ∧ ({ b with velocity := 3 } : Bird).jump.velocity = -11 := by
  intro b
  refine ⟨rfl, rfl, rfl, rfl, rfl, ?_⟩
  show -((11 : ℤ) : ℚ) = -11
  norm_num

/-- C3: every physics step unconditionally adds GRAVITY to the velocity
first and then adds the updated velocity to y (with pygame's truncating
store, no cap and no clamp), so after n steps the velocity is the initial
velocity plus n * GRAVITY; a bird starting at velocity 0 reaches 0.85,
1.7 and 2.55 after one, two and three steps. -/
theorem bird_physics_gravity :
    (∀ (b : Bird) (n : ℕ), (Bird.physicsStep^[n] b).velocity = b.velocity + n * GRAVITY)
    ∧ (∀ b : Bird, b.physicsStep.y = truncQ ((b.y : ℚ) + (b.velocity + GRAVITY)))
    ∧ (∀ b : Bird, b.velocity = 0 →
        (Bird.physicsStep^[1] b).velocity = 0.85
        ∧ (Bird.physicsStep^[2] b).velocity = 1.7
        ∧ (Bird.physicsStep^[3] b).velocity = 2.55) := by
  have hv : ∀ b : Bird, b.physicsStep.velocity = b.velocity + GRAVITY := fun b => rfl
  have hiter : ∀ (b : Bird) (n : ℕ),
      (Bird.physicsStep^[n] b).velocity = b.velocity + n * GRAVITY := by
    intro b n
    induction n with
    | zero => simp
    | succ m ih =>
      rw [Function.iterate_succ_apply', hv, ih]
      push_cast
      ring
  refine ⟨hiter, fun b => rfl, fun b hb => ?_⟩
  rw [hiter b 1, hiter b 2, hiter b 3, hb]
  norm_num [GRAVITY]

/-- Witness for C3 at a concrete bird with velocity 0. -/
theorem bird_physics_gravity_witness :
    witBird.velocity = 0 ∧ (Bird.physicsStep^[3] witBird).velocity = 2.55 :=
  ⟨rfl, (bird_physics_gravity.2.2 witBird rfl).2.2⟩

/-- C10: `Game.reset` raises SystemExit exactly when the exit flag was set
before the call; otherwise it succeeds, clearing the spawner list and
resetting the update registry to just the grounds (Boundary), which — like
the screen size — is preserved unchanged. -/
theorem game_reset_spec : ∀ g : Game,
    (g.reset = Except.error () ↔ g.exit = true)
    ∧ (∀ g', g.reset = Except.ok g' →
        g'.spawners = [] ∧ g'.updatedByGame = [EntityRef.grounds]
        ∧ g'.grounds = g.grounds ∧ g'.width = g.width ∧ g'.height = g.height
        ∧ g'.exit = false) := by
  intro g
  unfold Game.reset
  by_cases h : g.exit
  · simp [h]
  · simp only [h, Bool.false_eq_true, if_false, if_neg]
    constructor
    · simp [h]
    · intro g' hg'
      obtain rfl : _ = g' := Except.ok.inj hg'
      simp [h]

/-- Witness for C10: a concrete game with attachments resets to the grounds
only, and the same game with the exit flag set raises. -/
theorem game_reset_witness :
    witGame.reset = Except.ok witGameReset
    ∧ witGameReset.spawners = [] ∧ witGameReset.updatedByGame = [EntityRef.grounds]
    ∧ witGameReset.grounds = witGame.grounds
    ∧ witGameExit.reset = Except.error () := by
  have hok : witGame.reset = Except.ok witGameReset := rfl
  have h2 := (game_reset_spec witGame).2 witGameReset hok
  exact ⟨hok, h2.1, h2.2.1, h2.2.2.1, (game_reset_spec witGameExit).1.mpr rfl⟩

/-- C5 (amended): spawn attempts are driven by the wall-clock millisecond
reading `pygame.time.get_ticks()`, not by a per-call tick counter (Game
keeps none): an update whose millisecond reading is not divisible by
BALLOON_SPAWN_RATE only advances/retires the balloons, and the update's
behavior depends on the reading only through its value modulo
BALLOON_SPAWN_RATE. -/
theorem spawn_cadence_wall_clock : ∀ (sp : BalloonSpawner) (t t' : ℕ) (draws : ℕ → ℤ)
    (j iw ih : ℤ),
    (¬ t % BALLOON_SPAWN_RATE = 0 →
        sp.update t draws j iw ih = { sp with balloons := advanceBalloons sp.balloons })
    ∧ (t % BALLOON_SPAWN_RATE = t' % BALLOON_SPAWN_RATE →
        sp.update t draws j iw ih = sp.update t' draws j iw ih) := by
  intro sp t t' draws j iw ih
  constructor
  · intro h
    unfold BalloonSpawner.update
    simp [h]
  · intro h
    unfold BalloonSpawner.update
    rw [h]

/-- Witness for C5's amended theorem at millisecond reading 7. -/
theorem spawn_cadence_wall_clock_witness :
    (⟨[], 5⟩ : BalloonSpawner).update 7 cexDraws350 1 100 124
      = { (⟨[], 5⟩ : BalloonSpawner) with
            balloons := advanceBalloons (⟨[], 5⟩ : BalloonSpawner).balloons } :=
  (spawn_cadence_wall_clock ⟨[], 5⟩ 7 7 cexDraws350 1 100 124).1 (by decide)

/-- Counterexample to C5 as stated: in a 60 fps session the wall clock
advances by about 16 ms per `Game.tick`, so after the five calls that read
16, 32, 48, 64 and 80 ms a balloon has been spawned (at the fifth call,
because 80 is divisible by BALLOON_SPAWN_RATE), although none of the call
ordinals 1..5 is divisible by the cadence — a per-call tick counter gating
`counter % cadence == 0` would not have spawned yet. -/
theorem spawn_cadence_counterexample :
    (runSpawnerFrames ⟨[], 5⟩ cexFrames cexDraws350 1 100 124).balloons.length = 1
    ∧ 1 % BALLOON_SPAWN_RATE ≠ 0 ∧ 2 % BALLOON_SPAWN_RATE ≠ 0
    ∧ 3 % BALLOON_SPAWN_RATE ≠ 0 ∧ 4 % BALLOON_SPAWN_RATE ≠ 0
    ∧ 5 % BALLOON_SPAWN_RATE ≠ 0 := by decide

/-- Auxiliary: one spawn attempt grows the balloon list by at most one. -/
theorem spawnBalloon_length_le (s : BalloonSpawner) (d : ℕ → ℤ) (a b c : ℤ) :
    (spawnBalloon s d a b c).balloons.length ≤ s.balloons.length + 1 := by
  unfold spawnBalloon
  cases h : spawnSearch s.balloons d 0 10 <;> simp

/-- C7: a spawn is attempted only while the live count (after this tick's
advance/retire pass) is strictly below the configured maximum, so the count
after an update never exceeds the larger of that count and the maximum —
with max-concurrent 5 and 5 live balloons no sixth is spawned, at any
millisecond reading. -/
theorem spawner_respects_max : ∀ (sp : BalloonSpawner) (t : ℕ) (draws : ℕ → ℤ) (j iw ih : ℤ),
    (sp.maxBalloons ≤ (advanceBalloons sp.balloons).length →
        (sp.update t draws j iw ih).balloons = advanceBalloons sp.balloons)
    ∧ (sp.update t draws j iw ih).balloons.length
        ≤ max (advanceBalloons sp.balloons).length sp.maxBalloons := by
  intro sp t draws j iw ih
  constructor
  · intro h
    unfold BalloonSpawner.update
    have hno : ¬ (t % BALLOON_SPAWN_RATE = 0
        ∧ (advanceBalloons sp.balloons).length < sp.maxBalloons) := by
      rintro ⟨-, hlt⟩
      omega
    simp [hno]
  · unfold BalloonSpawner.update
    by_cases hc : t % BALLOON_SPAWN_RATE = 0
        ∧ (advanceBalloons sp.balloons).length < sp.maxBalloons
    · rw [if_pos hc]
      have h1 := spawnBalloon_length_le
        { sp with balloons := advanceBalloons sp.balloons } draws j iw ih
      have h2 : (advanceBalloons sp.balloons).length + 1 ≤ sp.maxBalloons := hc.2
      exact le_trans h1 (le_trans h2 (le_max_right _ _))
    · rw [if_neg hc]
      exact le_max_left _ _

/-- Witness for C7: five live balloons, none retiring, maximum 5, at a
millisecond reading divisible by the cadence — no spawn happens. -/
theorem spawner_respects_max_witness :
    ((⟨witFiveBalloons, 5⟩ : BalloonSpawner).update 0 cexDraws350 1 100 124).balloons
      = advanceBalloons witFiveBalloons :=
  (spawner_respects_max ⟨witFiveBalloons, 5⟩ 0 cexDraws350 1 100 124).1 (by decide)

/-- Auxiliary: the spawn search only looks at the draws of its try window. -/
theorem spawnSearch_congr : ∀ (balloons : List Balloon) (draws draws' : ℕ → ℤ)
    (tries i : ℕ),
    (∀ k, i ≤ k → k < i + tries → draws k = draws' k) →
    spawnSearch balloons draws i tries = spawnSearch balloons draws' i tries := by
  intro balloons draws draws' tries
  induction tries with
  | zero => intro i _; rfl
  | succ n ih =>
    intro i h
    unfold spawnSearch
    rw [h i le_rfl (by omega)]
    by_cases hf : isBalloonRadiusFree balloons (balloonSpawnRight, draws' i) minDistance = true
    · rw [if_pos hf, if_pos hf]
    · rw [if_neg hf, if_neg hf]
      exact ih (i + 1) fun k hk1 hk2 => h k (by omega) (by omega)

/-- Auxiliary: when every draw of the window is rejected, the search fails. -/
theorem spawnSearch_none : ∀ (balloons : List Balloon) (draws : ℕ → ℤ) (tries i : ℕ),
    (∀ k, i ≤ k → k < i + tries →
      isBalloonRadiusFree balloons (balloonSpawnRight, draws k) minDistance = false) →
    spawnSearch balloons draws i tries = none := by
  intro balloons draws tries
  induction tries with
  | zero => intro i _; rfl
  | succ n ih =>
    intro i h
    unfold spawnSearch
    rw [if_neg (by simp [h i le_rfl (by omega)])]
    exact ih (i + 1) fun k hk1 hk2 => h k (by omega) (by omega)

/-- Auxiliary: a successful search returns an accepted candidate. -/
theorem spawnSearch_some_free : ∀ (balloons : List Balloon) (draws : ℕ → ℤ)
    (tries i : ℕ) (y : ℤ),
    spawnSearch balloons draws i tries = some y →
    isBalloonRadiusFree balloons (balloonSpawnRight, y) minDistance = true := by
  intro balloons draws tries
  induction tries with
  | zero => intro i y h; exact absurd h (by simp [spawnSearch])
  | succ n ih =>
    intro i y h
    unfold spawnSearch at h
    by_cases hf : isBalloonRadiusFree balloons (balloonSpawnRight, draws i) minDistance = true
    · rw [if_pos hf] at h
      obtain rfl : draws i = y := Option.some.inj h
      exact hf
    · rw [if_neg hf] at h
      exact ih (i + 1) y h

/-- C8: a spawn attempt draws at most 10 candidates (the outcome only
depends on the first 10 draws), and when all 10 are rejected by the
separation check the attempt gives up silently, leaving the spawner
unchanged. -/
theorem spawn_attempt_bounded : ∀ (sp : BalloonSpawner) (draws draws' : ℕ → ℤ)
    (j iw ih : ℤ),
    ((∀ i, i < 10 → draws i = draws' i) →
        spawnBalloon sp draws j iw ih = spawnBalloon sp draws' j iw ih)
    ∧ ((∀ i, i < 10 →
          isBalloonRadiusFree sp.balloons (balloonSpawnRight, draws i) minDistance = false) →
        spawnBalloon sp draws j iw ih = sp) := by
  intro sp draws draws' j iw ih
  constructor
  · intro h
    unfold spawnBalloon
    rw [spawnSearch_congr sp.balloons draws draws' 10 0 fun k _ hk2 => h k (by omega)]
  · intro h
    unfold spawnBalloon
    rw [spawnSearch_none sp.balloons draws 10 0 fun k _ hk2 => h k (by omega)]

/-- Witness for C8: a spawner whose single balloon blocks the constant draw
stream 405 on both axes; all ten tries fail and the spawner is returned
unchanged. -/
theorem spawn_attempt_bounded_witness :
    spawnBalloon ⟨[witBalloon], 5⟩ cexDraws405 1 100 124 = ⟨[witBalloon], 5⟩ :=
  (spawn_attempt_bounded ⟨[witBalloon], 5⟩ cexDraws405 cexDraws405 1 100 124).2 (by decide)

/-- C4 (amended): an accepted candidate point is, for every live balloon,
at least `min_distance` from that balloon's center on at least one axis —
horizontally via the signed difference from the fixed spawn x, vertically
via the absolute difference (a balloon blocks a candidate only when it is
near on both axes at once).  The guarantee is about the candidate point;
the balloon is then anchored by its midtop at that point, so the placed
balloons' own centers may still end up closer than the minimum. -/
theorem spawn_candidate_separation : ∀ (sp : BalloonSpawner) (draws : ℕ → ℤ)
    (j iw ih y : ℤ),
    spawnSearch sp.balloons draws 0 10 = some y →
      (spawnBalloon sp draws j iw ih).balloons
          = sp.balloons ++ [Balloon.init (balloonSpawnRight, y) j iw ih]
      ∧ ∀ b ∈ sp.balloons,
          minDistance ≤ balloonSpawnRight - b.centerx ∨ minDistance ≤ |y - b.centery| := by
  intro sp draws j iw ih y h
  refine ⟨by unfold spawnBalloon; rw [h], ?_⟩
  have hfree := spawnSearch_some_free sp.balloons draws 10 0 y h
  unfold isBalloonRadiusFree at hfree
  rw [List.all_eq_true] at hfree
  intro b hb
  have hB := hfree b hb
  by_cases hA : balloonSpawnRight - b.centerx < minDistance
  · by_cases hC : |y - b.centery| < minDistance
    · exfalso
      simp only [Bool.not_eq_true', Bool.and_eq_false_iff, decide_eq_false_iff_not] at hB
      rcases hB with hB | hB
      · exact hB hA
      · exact hB hC
    · exact Or.inr (not_lt.mp hC)
  · exact Or.inl (not_lt.mp hA)

/-- Witness for C4's amended theorem: on an empty field the first draw is
accepted and the balloon is appended. -/
theorem spawn_candidate_separation_witness :
    (spawnBalloon ⟨[], 5⟩ cexDraws350 1 100 124).balloons
      = [] ++ [Balloon.init (balloonSpawnRight, 350) 1 100 124] :=
  ((spawn_candidate_separation ⟨[], 5⟩ cexDraws350 1 100 124 350 (by decide)).1)

/-- Counterexample to C4 as stated: `cexBalloon` was spawned at candidate
`(650, 300)` and has drifted left for five frames; the candidate y = 205 is
accepted (its vertical distance to the live balloon's center is exactly
150, and the horizontal check alone does not block), yet because balloons
are anchored by midtop — not by center — at the candidate point, the two
placed balloons end up with center distance below the 150 minimum on BOTH
axes (25 horizontally, 95 vertically) at spawn time. -/
theorem spawn_separation_counterexample :
    (spawnBalloon ⟨[cexBalloon], 5⟩ cexDraws205 1 100 124).balloons
        = [cexBalloon, cexNewBalloon]
    ∧ |cexNewBalloon.centerx - cexBalloon.centerx| < minDistance
    ∧ |cexNewBalloon.centery - cexBalloon.centery| < minDistance
    ∧ cexBalloon.passed = false ∧ 0 ≤ cexBalloon.right := by decide

/-- Auxiliary: the condition stream ignores the passed flag. -/
theorem runConds_flag_indep : ∀ (es : List BalloonEvent) (b : Balloon) (p : Bool),
    runConds { b with passed := p } es = runConds b es := by
  intro es
  induction es with
  | nil => intro b p; rfl
  | cons e es ih =>
    intro b p
    cases e with
    | move =>
      show runConds ({ b with passed := p } : Balloon).moveStep es = runConds b.moveStep es
      have hms : ({ b with passed := p } : Balloon).moveStep
          = { b.moveStep with passed := p } := rfl
      rw [hms, ih]
    | check bird =>
      simp only [runConds]
      rw [ih b p]
      rfl

/-- Auxiliary: once the flag is set, every later `check_passed` call
returns false, whichever flyer asks. -/
theorem runChecks_flag_set_all_false : ∀ (es : List BalloonEvent) (b : Balloon),
    b.passed = true → ∀ p ∈ runChecks b es, p.2 = false := by
  intro es
  induction es with
  | nil => intro b hb p hp; simp [runChecks] at hp
  | cons e es ih =>
    intro b hb p hp
    cases e with
    | move => exact ih b.moveStep hb p hp
    | check bird =>
      have hcp : b.checkPassed bird = (false, b) := by
        unfold Balloon.checkPassed
        rw [if_neg]
        rintro ⟨-, h2⟩
        rw [hb] at h2
        simp at h2
      simp only [runChecks, hcp] at hp
      rcases List.mem_cons.mp hp with rfl | hmem
      · rfl
      · exact ih b hb p hmem

/-- Auxiliary: with the flag set the result stream is all false, one
result per condition. -/
theorem runChecks_flag_set_map : ∀ (es : List BalloonEvent) (b : Balloon),
    b.passed = true →
    (runChecks b es).map Prod.snd = (runConds b es).map fun _ => false := by
  intro es
  induction es with
  | nil => intro b _; rfl
  | cons e es ih =>
    intro b hb
    cases e with
    | move => exact ih b.moveStep hb
    | check bird =>
      have hcp : b.checkPassed bird = (false, b) := by
        unfold Balloon.checkPassed
        rw [if_neg]
        rintro ⟨-, h2⟩
        rw [hb] at h2
        simp at h2
      simp only [runChecks, runConds, hcp, List.map_cons]
      rw [ih b hb]

/-- Auxiliary: the conditions recorded by `runChecks` are `runConds`. -/
theorem runChecks_map_fst : ∀ (es : List BalloonEvent) (b : Balloon),
    (runChecks b es).map Prod.fst = runConds b es := by
  intro es
  induction es with
  | nil => intro b; rfl
  | cons e es ih =>
    intro b
    cases e with
    | move => exact ih b.moveStep
    | check bird =>
      simp only [runChecks, runConds, List.map_cons]
      by_cases hc : b.right < bird.x ∧ b.passed = false
      · have hcp : b.checkPassed bird = (true, { b with passed := true }) := by
          unfold Balloon.checkPassed
          rw [if_pos hc]
        rw [hcp]
        show _ :: (runChecks { b with passed := true } es).map Prod.fst = _ :: runConds b es
        rw [ih { b with passed := true }, runConds_flag_indep es b true]
      · have hcp : b.checkPassed bird = (false, b) := by
          unfold Balloon.checkPassed
          rw [if_neg hc]
        rw [hcp]
        show _ :: (runChecks b es).map Prod.fst = _ :: runConds b es
        rw [ih b]

/-- Auxiliary: starting with the flag unset, the results mark exactly the
first true condition. -/
theorem runChecks_markFirst : ∀ (es : List BalloonEvent) (b : Balloon),
    b.passed = false →
    (runChecks b es).map Prod.snd = markFirstTrue (runConds b es) := by
  intro es
  induction es with
  | nil => intro b _; rfl
  | cons e es ih =>
    intro b hb
    cases e with
    | move => exact ih b.moveStep hb
    | check bird =>
      by_cases hcond : b.right < bird.x
      · have hcp : b.checkPassed bird = (true, { b with passed := true }) := by
          unfold Balloon.checkPassed
          rw [if_pos ⟨hcond, hb⟩]
        simp only [runChecks, runConds, hcp, List.map_cons, markFirstTrue,
          decide_eq_true hcond, if_true]
        rw [runChecks_flag_set_map es { b with passed := true } rfl,
          runConds_flag_indep es b true]
      · have hcp : b.checkPassed bird = (false, b) := by
          unfold Balloon.checkPassed
          rw [if_neg]
          rintro ⟨h1, -⟩
          exact hcond h1
        simp only [runChecks, runConds, hcp, List.map_cons, markFirstTrue,
          decide_eq_false hcond, Bool.false_eq_true, if_false]
        rw [ih b hb]

/-- Auxiliary: a marked stream holds at most one true. -/
theorem markFirstTrue_countP_le : ∀ cs : List Bool,
    (markFirstTrue cs).countP (fun x => x) ≤ 1 := by
  intro cs
  induction cs with
  | nil => simp [markFirstTrue]
  | cons c cs ih =>
    cases c
    · simp only [markFirstTrue, Bool.false_eq_true, if_false]
      simpa using ih
    · simp only [markFirstTrue, if_true]
      simp [List.countP_cons, List.countP_map]

/-- C1: over any lifetime of movements and `check_passed` queries by
arbitrary flyers, an obstacle returns true at most once ever; the recorded
conditions are the flag-independent geometric stream, and with the flag
initially unset the results are true exactly at the first query whose
geometric condition (`rect.right < flyer.rect.left`) holds and false at
every other query — the flag is set permanently at that first success, and
(last conjunct) a set flag forces false for every query by any flyer. -/
theorem check_passed_once : ∀ (b : Balloon) (es : List BalloonEvent),
    (runChecks b es).countP (fun p => p.2) ≤ 1
    ∧ (runChecks b es).map Prod.fst = runConds b es
    ∧ (b.passed = false →
        (runChecks b es).map Prod.snd = markFirstTrue (runConds b es))
    ∧ (b.passed = true → ∀ p ∈ runChecks b es, p.2 = false) := by
  intro b es
  refine ⟨?_, runChecks_map_fst es b, runChecks_markFirst es b,
    runChecks_flag_set_all_false es b⟩
  have hcnt : ((runChecks b es).map Prod.snd).countP (fun x => x)
      = (runChecks b es).countP (fun p => p.2) := by
    rw [List.countP_map]
    rfl
  rw [← hcnt]
  cases hb : b.passed
  · rw [runChecks_markFirst es b hb]
    exact markFirstTrue_countP_le (runConds b es)
  · rw [runChecks_flag_set_map es b hb]
    have h0 : ((runConds b es).map fun _ => false).countP (fun x => x) = 0 := by
      rw [List.countP_eq_zero]
      intro a ha
      rcases List.mem_map.mp ha with ⟨-, -, rfl⟩
      simp
    rw [h0]
    exact Nat.zero_le 1

/-- Witness for C1: a fresh balloon checked twice by a flyer standing to
its right answers true then false. -/
theorem check_passed_once_witness :
    witBalloon.passed = false
    ∧ (runChecks witBalloon witEvents).map Prod.snd
        = markFirstTrue (runConds witBalloon witEvents)
    ∧ (runChecks witBalloon witEvents).map Prod.snd = [true, false] :=
  ⟨rfl, (check_passed_once witBalloon witEvents).2.2.1 rfl, by decide⟩

/-- Auxiliary: an id absent from the mapping neither accrues fitness during
a tick pass nor reappears in the surviving mapping. -/
theorem onGameTickGo_absent : ∀ (nj : ℕ → Bird → Bool) (col : Bird → Bool)
    (l : List (ℕ × Bird)) (fit : ℕ → ℚ) (k : ℕ),
    k ∉ l.map Prod.fst →
      (onGameTickGo nj col l fit).2 k = fit k
      ∧ k ∉ (onGameTickGo nj col l fit).1.map Prod.fst := by
  intro nj col l
  induction l with
  | nil =>
    intro fit k _
    exact ⟨rfl, by simp [onGameTickGo]⟩
  | cons hd tl ih =>
    intro fit k hk
    obtain ⟨k1, b1⟩ := hd
    simp only [List.map_cons, List.mem_cons] at hk
    push_neg at hk
    obtain ⟨hk1, hktl⟩ := hk
    simp only [onGameTickGo]
    by_cases hcol : col (agentTick (fit k1) b1 (nj k1 b1)).2 = true
    · rw [if_pos hcol]
      have h := ih (fun k' => if k' = k1 then (agentTick (fit k1) b1 (nj k1 b1)).1 - 5
        else fit k') k hktl
      refine ⟨?_, h.2⟩
      rw [h.1]
      simp [hk1]
    · rw [if_neg hcol]
      have h := ih (fun k' => if k' = k1 then (agentTick (fit k1) b1 (nj k1 b1)).1
        else fit k') k hktl
      constructor
      · show (onGameTickGo nj col tl _).2 k = fit k
        rw [h.1]
        simp [hk1]
      · simp only [List.map_cons, List.mem_cons]
        rintro (h' | h')
        · exact hk1 h'
        · exact h.2 h'

/-- Auxiliary: a colliding agent is culled during the pass with exactly the
5-point penalty applied after this tick's accruals. -/
theorem onGameTickGo_collision : ∀ (nj : ℕ → Bird → Bool) (col : Bird → Bool)
    (l : List (ℕ × Bird)) (fit : ℕ → ℚ) (k : ℕ) (b : Bird),
    (l.map Prod.fst).Nodup → (k, b) ∈ l →
    col (agentTick (fit k) b (nj k b)).2 = true →
      k ∉ (onGameTickGo nj col l fit).1.map Prod.fst
      ∧ (onGameTickGo nj col l fit).2 k = (agentTick (fit k) b (nj k b)).1 - 5 := by
  intro nj col l
  induction l with
  | nil =>
    intro fit k b _ hmem _
    simp at hmem
  | cons hd tl ih =>
    intro fit k b hnd hmem hcol
    obtain ⟨k1, b1⟩ := hd
    simp only [List.map_cons, List.nodup_cons] at hnd
    obtain ⟨hk1ntl, hnd'⟩ := hnd
    rcases List.mem_cons.mp hmem with heq | hmem'
    · cases heq
      simp only [onGameTickGo]
      rw [if_pos hcol]
      have habs := onGameTickGo_absent nj col tl
        (fun k' => if k' = k then (agentTick (fit k) b (nj k b)).1 - 5 else fit k') k hk1ntl
      refine ⟨habs.2, ?_⟩
      rw [habs.1]
      simp
    · have hkne : k ≠ k1 := by
        intro hkk
        subst hkk
        exact hk1ntl (List.mem_map.mpr ⟨(k, b), hmem', rfl⟩)
      simp only [onGameTickGo]
      by_cases hcolh : col (agentTick (fit k1) b1 (nj k1 b1)).2 = true
      · rw [if_pos hcolh]
        have h := ih (fun k' => if k' = k1 then (agentTick (fit k1) b1 (nj k1 b1)).1 - 5
          else fit k') k b hnd' hmem' (by simpa [hkne] using hcol)
        simpa [hkne] using h
      · rw [if_neg hcolh]
        have h := ih (fun k' => if k' = k1 then (agentTick (fit k1) b1 (nj k1 b1)).1
          else fit k') k b hnd' hmem' (by simpa [hkne] using hcol)
        simp only [if_neg hkne] at h
        constructor
        · simp only [List.map_cons, List.mem_cons]
          rintro (h' | h')
          · exact hkne h'
          · exact h.1 h'
        · exact h.2

/-- C6: in the per-generation evaluation loop, an agent whose bird collides
at this tick's collision check (after the tick's survival/score accrual and
jump handling, `agentTick`) is removed from the active mapping within that
same tick and its genome's fitness ends at exactly the tick's accrued value
minus the collision penalty 5; and (second conjunct) an id no longer in the
mapping accrues nothing in any later tick and never reappears, so no
further fitness is accrued for it during the generation. -/
theorem population_collision_culling :
    (∀ (st : GenState) (nj : ℕ → Bird → Bool) (col : Bird → Bool) (k : ℕ) (b : Bird),
        (st.active.map Prod.fst).Nodup → (k, b) ∈ st.active →
        col (agentTick (st.fitness k) b (nj k b)).2 = true →
          k ∉ (onGameTick st nj col).active.map Prod.fst
          ∧ (onGameTick st nj col).fitness k
              = (agentTick (st.fitness k) b (nj k b)).1 - 5)
    ∧ (∀ (st : GenState) (nj : ℕ → Bird → Bool) (col : Bird → Bool) (k : ℕ),
        k ∉ st.active.map Prod.fst →
          (onGameTick st nj col).fitness k = st.fitness k
          ∧ k ∉ (onGameTick st nj col).active.map Prod.fst) := by
  constructor
  · intro st nj col k b hnd hmem hcol
    exact onGameTickGo_collision nj col st.active st.fitness k b hnd hmem hcol
  · intro st nj col k hk
    exact onGameTickGo_absent nj col st.active st.fitness k hk

/-- Witness for C6: a single agent, id 1, whose bird collides immediately:
it is culled this very tick with fitness 0.01 - 5. -/
theorem population_collision_culling_witness :
    1 ∉ (onGameTick witGenState witNeedJump witCollides).active.map Prod.fst
    ∧ (onGameTick witGenState witNeedJump witCollides).fitness 1
        = (agentTick (witGenState.fitness 1) witBird (witNeedJump 1 witBird)).1 - 5 :=
  population_collision_culling.1 witGenState witNeedJump witCollides 1 witBird
    (by decide) (by decide) rfl

/-- Auxiliary: flat-mapping a replicated element replicates its image. -/
theorem flatMap_replicate : ∀ (n : ℕ) (p : ℚ × ℚ) (f : ℚ × ℚ → List Feature),
    (List.replicate n p).flatMap f = (List.replicate n (f p)).flatten := by
  intro n p f
  induction n with
  | zero => rfl
  | succ m ih => simp [List.replicate_succ, ih]

/-- Auxiliary: three features per slot. -/
theorem flatMap_three_length : ∀ {α : Type} (l : List α) (f g d : α → Feature),
    (l.flatMap fun c => [f c, g c, d c]).length = 3 * l.length := by
  intro α l f g d
  induction l with
  | nil => rfl
  | cons c l ih =>
    simp only [List.flatMap_cons, List.length_append, List.length_cons, List.length_nil, ih]
    omega

/-- Auxiliary: length of a flattened replication. -/
theorem flatten_replicate_length : ∀ (n : ℕ) (l : List Feature),
    (List.replicate n l).flatten.length = n * l.length := by
  intro n l
  induction n with
  | zero => simp
  | succ m ih =>
    rw [List.replicate_succ, List.flatten_cons, List.length_append, ih, Nat.succ_mul]
    exact Nat.add_comm _ _

/-- C9 (amended): the feature vector actually fed to the network is
normalized-y-from-top, velocity, score (no from-bottom entry), followed by
one slot per coordinate of the spawner's slot list — live balloons in spawn
order, then sentinel (-1, -1) slots up to the maximum concurrency — each
slot holding x, y and the Euclidean distance from the flyer in normalized
space, the distance being computed for sentinel slots too (to the point
(-1, -1)) rather than being the sentinel -1; the vector size is fixed at
3 + 3 * max. -/
theorem perception_vector_layout : ∀ (gw gh : ℤ) (bird : Bird) (sp : BalloonSpawner),
    sp.balloons.length ≤ sp.maxBalloons →
      birdInputParams gw gh bird (getBalloonCoordinates gw gh sp)
        = Feature.val ((bird.y : ℚ) / (gh : ℚ)) :: Feature.val bird.velocity
            :: Feature.val (bird.score : ℚ)
            :: ((sp.balloons.flatMap fun b =>
                  [Feature.val ((b.centerx : ℚ) / (gw : ℚ)),
                   Feature.val ((b.centery : ℚ) / (gh : ℚ)),
                   Feature.dist ((bird.y : ℚ) / (gh : ℚ) - (b.centery : ℚ) / (gh : ℚ))
                     ((bird.x : ℚ) / (gw : ℚ) - (b.centerx : ℚ) / (gw : ℚ))])
                ++ (List.replicate (sp.maxBalloons - sp.balloons.length)
                      [Feature.val (-1), Feature.val (-1),
                       Feature.dist ((bird.y : ℚ) / (gh : ℚ) + 1)
                         ((bird.x : ℚ) / (gw : ℚ) + 1)]).flatten)
      ∧ (birdInputParams gw gh bird (getBalloonCoordinates gw gh sp)).length
          = 3 + 3 * sp.maxBalloons := by
  intro gw gh bird sp h
  have hmain : birdInputParams gw gh bird (getBalloonCoordinates gw gh sp)
      = Feature.val ((bird.y : ℚ) / (gh : ℚ)) :: Feature.val bird.velocity
          :: Feature.val (bird.score : ℚ)
          :: ((sp.balloons.flatMap fun b =>
                [Feature.val ((b.centerx : ℚ) / (gw : ℚ)),
                 Feature.val ((b.centery : ℚ) / (gh : ℚ)),
                 Feature.dist ((bird.y : ℚ) / (gh : ℚ) - (b.centery : ℚ) / (gh : ℚ))
                   ((bird.x : ℚ) / (gw : ℚ) - (b.centerx : ℚ) / (gw : ℚ))])
              ++ (List.replicate (sp.maxBalloons - sp.balloons.length)
                    [Feature.val (-1), Feature.val (-1),
                     Feature.dist ((bird.y : ℚ) / (gh : ℚ) + 1)
                       ((bird.x : ℚ) / (gw : ℚ) + 1)]).flatten) := by
    simp only [birdInputParams, getBalloonCoordinates]
    rw [List.flatMap_append, List.flatMap_map, flatMap_replicate]
    simp [sub_neg_eq_add]
  refine ⟨hmain, ?_⟩
  have h1 := flatMap_three_length sp.balloons
    (fun b => Feature.val ((b.centerx : ℚ) / (gw : ℚ)))
    (fun b => Feature.val ((b.centery : ℚ) / (gh : ℚ)))
    (fun b => Feature.dist ((bird.y : ℚ) / (gh : ℚ) - (b.centery : ℚ) / (gh : ℚ))
      ((bird.x : ℚ) / (gw : ℚ) - (b.centerx : ℚ) / (gw : ℚ)))
  have h2 := flatten_replicate_length (sp.maxBalloons - sp.balloons.length)
    [Feature.val (-1), Feature.val (-1),
     Feature.dist ((bird.y : ℚ) / (gh : ℚ) + 1) ((bird.x : ℚ) / (gw : ℚ) + 1)]
  rw [hmain]
  simp only [List.length_cons, List.length_append, h1, h2, List.length_nil]
  omega

/-- Witness for C9's amended theorem: one live balloon, maximum 5, vector
size 18. -/
theorem perception_vector_layout_witness :
    (birdInputParams 600 700 cexBird
        (getBalloonCoordinates 600 700 ⟨[witBalloon], 5⟩)).length = 3 + 3 * 5 :=
  (perception_vector_layout 600 700 cexBird ⟨[witBalloon], 5⟩ (by decide)).2

/-- Counterexample to C9 as stated: for a concrete bird over an empty field
of maximum concurrency 5, the vector the code feeds to the network differs
from the spec's described vector — the code's has 18 entries (three leading
features: y-from-top, velocity, score), the spec's 19 (four leading
features including y-from-bottom); the spec's sentinel slots also end in
the literal -1 where the code computes a distance to (-1, -1). -/
theorem perception_vector_counterexample :
    birdInputParams 600 700 cexBird (getBalloonCoordinates 600 700 ⟨[], 5⟩)
        ≠ specPerceptionVector 600 700 cexBird ⟨[], 5⟩
    ∧ (birdInputParams 600 700 cexBird (getBalloonCoordinates 600 700 ⟨[], 5⟩)).length = 18
    ∧ (specPerceptionVector 600 700 cexBird ⟨[], 5⟩).length = 19 := by
  have h18 : (birdInputParams 600 700 cexBird
      (getBalloonCoordinates 600 700 ⟨[], 5⟩)).length = 18 := rfl
  have h19 : (specPerceptionVector 600 700 cexBird ⟨[], 5⟩).length = 19 := rfl
  refine ⟨?_, h18, h19⟩
  intro heq
  rw [heq, h19] at h18
  exact absurd h18 (by decide)
